import Mathlib

/-!
Verification of the `Guides` component of `src/components/Guides.tsx`.

The component holds a constant list of guide descriptors and renders a
section heading followed by a grid of cards, one card per descriptor.
We embed the descriptor record, the constant list, the rendered view
tree and the render function, and prove the specified properties.
-/

/-- A guide descriptor, as in the object literals of the `guides` array:
a destination path, a display title and a one-line summary. -/
structure GuideEntry where
  href : String
  name : String
  description : String
deriving DecidableEq, Repr

/-- The constant `guides` array of `Guides.tsx`, entry for entry. -/
def guides : List GuideEntry :=
  [ { href := "/quickstart"
    , name := "Klever Wallet"
    , description := "How to integrate with Klever Wallet browser." }
  , { href := "/transfer"
    , name := "Transfer"
    , description := "How to transfer with Klever Blockchain." }
  , { href := "/errors"
    , name := "NFT"
    , description := "How to create a NFT." }
  , { href := "/create-token"
    , name := "Create Token"
    , description := "How to create a token with Klever Blockchain." }
  ]

/-- A node of the rendered view tree. `div` carries an optional
`className`, an optional `key` and its children; `h3` and `p` carry a
`className` and children; `heading` embeds the external `Heading`
collaborator with its `level` and `id` props; `button` embeds the
external `Button` collaborator with its `href`, `variant` and `arrow`
props; `text` is a text node. -/
inductive Node where
  | text (s : String)
  | div (className : Option String) (key : Option String) (children : List Node)
  | h3 (className : String) (children : List Node)
  | p (className : String) (children : List Node)
  | heading (level : Nat) (id : String) (children : List Node)
  | button (href : String) (variant : String) (arrow : String) (children : List Node)

/-- The body of the arrow function passed to `guides.map` in `Guides`:
one card per guide, keyed by `guide.href`, containing the title, the
description and the Read more button. -/
def renderCard (guide : GuideEntry) : Node :=
  Node.div none (some guide.href)
    [ Node.h3 "text-sm font-semibold text-zinc-900 dark:text-white"
        [ Node.text guide.name ]
    , Node.p "mt-1 text-sm text-zinc-600 dark:text-zinc-400"
        [ Node.text guide.description ]
    , Node.p "mt-4"
        [ Node.button guide.href "text" "right" [ Node.text "Read more" ] ]
    ]

/-- The `Guides` component. It takes no props (modelled by `Unit`) and
returns the view tree of its JSX body: an outer `div` holding the
section heading and the grid `div` whose children are the mapped cards. -/
def Guides : Unit → Node := fun _ =>
  Node.div (some "my-16 xl:max-w-none") none
    [ Node.heading 2 "guides" [ Node.text "Guides" ]
    , Node.div
        (some "not-prose mt-4 grid grid-cols-1 gap-8 border-t border-zinc-900/5 pt-10 dark:border-white/5 sm:grid-cols-2 xl:grid-cols-4")
        none
        (guides.map renderCard)
    ]

/-- The children of the top-level element of a rendered tree. -/
def topChildren : Node → List Node
  | Node.div _ _ cs => cs
  | _ => []

/-- The cards of a rendered `Guides` tree: the children of the grid
container that follows the section heading. -/
def cardsOf : Node → List Node
  | Node.div _ _ [_, Node.div _ _ cards] => cards
  | _ => []

/-- The visible heading text of a card: the text inside its `h3`. -/
def cardTitle : Node → Option String
  | Node.div _ _ (Node.h3 _ [Node.text s] :: _) => some s
  | _ => none

/-- The visible body text of a card: the text inside its first `p`. -/
def cardBody : Node → Option String
  | Node.div _ _ [_, Node.p _ [Node.text s], _] => some s
  | _ => none

/-- The navigation target of the link control of a card: the `href`
prop of the `Button` inside its second `p`. -/
def cardHref : Node → Option String
  | Node.div _ _ [_, _, Node.p _ [Node.button h _ _ _]] => some h
  | _ => none

/-- The React `key` of a card element. -/
def cardKey : Node → Option String
  | Node.div _ k _ => k
  | _ => none

/-- The full configuration of the link control of a card. -/
structure ButtonView where
  href : String
  variant : String
  arrow : String
  label : String
deriving DecidableEq, Repr

/-- The link control of a card, with all its props and its label. -/
def cardButton : Node → Option ButtonView
  | Node.div _ _ [_, _, Node.p _ [Node.button h v a [Node.text l]]] =>
      some { href := h, variant := v, arrow := a, label := l }
  | _ => none

/-- Whether a node is a rendering of the `Heading` collaborator. -/
def isHeadingNode : Node → Bool
  | Node.heading _ _ _ => true
  | _ => false

/-- The visible text of the section heading of a rendered `Guides`
tree, when the tree starts with one. -/
def sectionHeadingText : Node → Option String
  | Node.div _ _ (Node.heading _ _ [Node.text s] :: _) => some s
  | _ => none

/-- Whether a card matches a guide entry: its title is the name of the
entry, its body is the description and its link target is the href. -/
def cardMatches (g : GuideEntry) (c : Node) : Bool :=
  cardTitle c == some g.name && cardBody c == some g.description
    && cardHref c == some g.href

/-- Validity of a relative route string: it starts with a slash, names
a nonempty path and uses only alphanumeric characters, dashes and
slashes. -/
def isValidRelativeRoute (s : String) : Bool :=
  match s.toList with
  | [] => false
  | c :: rest =>
      c == '/' && rest.length > 0
        && rest.all (fun ch => ch.isAlphanum || ch == '-' || ch == '/')

/-- C1: every entry of the fixed `guides` list yields exactly one card
in the output of `Guides` whose heading text is the name of the entry,
whose body text is its description and whose link target is its href;
moreover the cards are exactly the one-pass map of the list, with no
filtering, sorting or deduplication. -/
theorem guides_cards_exact_map :
    cardsOf (Guides ()) = guides.map renderCard ∧
    ∀ g ∈ guides, (cardsOf (Guides ())).countP (cardMatches g) = 1 := by
  exact ⟨rfl, by decide⟩

/-- Witness for C1 at the Transfer entry of the list. -/
theorem guides_cards_exact_map_witness :
    (cardsOf (Guides ())).countP
      (cardMatches
        { href := "/transfer"
        , name := "Transfer"
        , description := "How to transfer with Klever Blockchain." }) = 1 :=
  guides_cards_exact_map.2 _ (by decide)

/-- C2: the number of cards in the output of `Guides` equals the length
of the fixed `guides` list, and that length is 4. -/
theorem guides_card_count :
    (cardsOf (Guides ())).length = guides.length ∧ guides.length = 4 :=
  ⟨rfl, rfl⟩

/-- C3: render order preserves list order: for adjacent indices i and
i + 1 of the `guides` list, the card of the entry at index i appears at
a strictly smaller position in the output of `Guides` than the card of
the entry at index i + 1. -/
theorem guides_render_order :
    ∀ i j : Fin guides.length, (i : Nat) + 1 = (j : Nat) →
      ((cardsOf (Guides ())).findIdx fun c => cardHref c == some (guides.get i).href)
        < ((cardsOf (Guides ())).findIdx fun c => cardHref c == some (guides.get j).href) := by
  decide

/-- Witness for C3 at the first adjacent pair of indices. -/
theorem guides_render_order_witness :
    ((cardsOf (Guides ())).findIdx fun c =>
        cardHref c == some (guides.get ⟨0, by decide⟩).href)
      < ((cardsOf (Guides ())).findIdx fun c =>
        cardHref c == some (guides.get ⟨1, by decide⟩).href) :=
  guides_render_order ⟨0, by decide⟩ ⟨1, by decide⟩ (by decide)

/-- C4: `Guides` is deterministic: it takes no props and reads only the
constant `guides` list, so any two invocations produce identical output
trees. -/
theorem guides_deterministic : ∀ u v : Unit, Guides u = Guides v :=
  fun _ _ => rfl

/-- C5: every entry of the fixed `guides` list satisfies the data-model
invariant: its href is a valid relative route string, and its name and
description are non-empty display text. -/
theorem guides_entry_invariant :
    ∀ g ∈ guides,
      isValidRelativeRoute g.href = true ∧ g.name ≠ "" ∧ g.description ≠ "" := by
  decide

/-- Witness for C5 at the first entry of the list. -/
theorem guides_entry_invariant_witness :
    isValidRelativeRoute "/quickstart" = true ∧
    ("Klever Wallet" : String) ≠ "" ∧
    ("How to integrate with Klever Wallet browser." : String) ≠ "" :=
  guides_entry_invariant
    { href := "/quickstart"
    , name := "Klever Wallet"
    , description := "How to integrate with Klever Wallet browser." }
    (by decide)

/-- C6: the output of `Guides` is a view tree containing exactly one
section heading, with visible text Guides, followed by the grid
container holding one card per entry of the list. -/
theorem guides_section_structure :
    (topChildren (Guides ())).countP isHeadingNode = 1 ∧
    sectionHeadingText (Guides ()) = some "Guides" ∧
    topChildren (Guides ()) =
      [ Node.heading 2 "guides" [ Node.text "Guides" ]
      , Node.div
          (some "not-prose mt-4 grid grid-cols-1 gap-8 border-t border-zinc-900/5 pt-10 dark:border-white/5 sm:grid-cols-2 xl:grid-cols-4")
          none
          (guides.map renderCard)
      ] :=
  ⟨rfl, rfl, rfl⟩

/-- C7: the Transfer entry is present in the fixed `guides` list, and
the output of `Guides` contains a card titled Transfer, with the
Transfer description as body and a Read more control targeting the
transfer path. -/
theorem guides_transfer_example :
    ({ href := "/transfer"
     , name := "Transfer"
     , description := "How to transfer with Klever Blockchain." } : GuideEntry) ∈ guides ∧
    (cardsOf (Guides ())).any (fun c =>
      cardTitle c == some "Transfer"
        && cardBody c == some "How to transfer with Klever Blockchain."
        && cardButton c == some
            { href := "/transfer", variant := "text"
            , arrow := "right", label := "Read more" }) = true := by
  decide

/-- C8: rendering is total: for every guide entry, malformed or not,
`renderCard` produces a card carrying exactly the fields of the entry;
there is no failure branch. -/
theorem renderCard_total :
    ∀ g : GuideEntry, ∃ n, renderCard g = n ∧
      cardTitle n = some g.name ∧ cardBody n = some g.description ∧
      cardHref n = some g.href :=
  fun g => ⟨renderCard g, rfl, rfl, rfl, rfl⟩

/-- C9: the hrefs of the entries of the fixed `guides` list are
pairwise distinct, so the per-card keys of the rendered cards, which
are exactly those hrefs, are unique. -/
theorem guides_keys_unique :
    (guides.map fun g => g.href).Nodup ∧
    (cardsOf (Guides ())).map cardKey = guides.map (fun g => some g.href) ∧
    ((cardsOf (Guides ())).map cardKey).Nodup := by
  decide

/-- C10: for every entry of the fixed `guides` list, the link control
of its card is configured identically: label Read more, variant text,
right arrow; only the destination href varies. -/
theorem guides_button_uniform :
    ∀ g ∈ guides,
      cardButton (renderCard g) = some
        { href := g.href, variant := "text"
        , arrow := "right", label := "Read more" } :=
  fun _ _ => rfl

/-- Witness for C10 at the Transfer entry of the list. -/
theorem guides_button_uniform_witness :
    cardButton (renderCard
      { href := "/transfer"
      , name := "Transfer"
      , description := "How to transfer with Klever Blockchain." }) = some
      { href := "/transfer", variant := "text"
      , arrow := "right", label := "Read more" } :=
  guides_button_uniform _ (by decide)
